import Mathlib

/-!
Verification of the `swaply/identity` record-mapping layer
(`src/schema/user.rs`): the user data model, the identity-provider tag
codec, registration-timestamp reconciliation, the write-path encoder to
query values, the read-path decoder from rows, and the lookup-query
builder.  All definitions are shallow embeddings of the Rust source;
machine integers are modelled as `Int`/`Nat` with explicit range
hypotheses where the Rust types bound them.
-/

/-- Decidable equality for `Except`, used to evaluate the fallible
conversions of the layer on concrete inputs. -/
instance exceptDecEq {ε α : Type} [DecidableEq ε] [DecidableEq α] :
    DecidableEq (Except ε α)
  | .ok x, .ok y =>
    if h : x = y then .isTrue (congrArg Except.ok h)
    else .isFalse (fun he => h (by injection he))
  | .error x, .error y =>
    if h : x = y then .isTrue (congrArg Except.error h)
    else .isFalse (fun he => h (by injection he))
  | .ok _, .error _ => .isFalse (fun he => Except.noConfusion he)
  | .error _, .ok _ => .isFalse (fun he => Except.noConfusion he)

/-- `IdentityProvider` enum from the source: the closed set of supported
external identity sources. -/
inductive IdentityProvider
  | Google
  | GitHub
  | Twitch
  | Reddit
  | Twitter
  | Discord
  | Facebook
deriving DecidableEq

/-- `IntoIdentityProviderError`: errors from parsing into an
`IdentityProvider`.  The Rust `Utf8Error` payload (a `std::str::Utf8Error`)
is elided; only the tag matters to the layer. -/
inductive IntoIdentityProviderError
  | Utf8Error
  | InvalidProvider
deriving DecidableEq

/-- `From<IdentityProvider> for &str` (user.rs:99-111): the fixed lowercase
wire string of each tag. -/
def providerToStr : IdentityProvider → String
  | .Google => "google"
  | .GitHub => "github"
  | .Twitch => "twitch"
  | .Reddit => "reddit"
  | .Twitter => "twitter"
  | .Discord => "discord"
  | .Facebook => "facebook"

/-- `TryFrom<&str> for IdentityProvider` (user.rs:121-135).  The match in
the source has arms for exactly six strings; there is no `"reddit"` arm. -/
def strTryInto (s : String) : Except IntoIdentityProviderError IdentityProvider :=
  if s = "google" then .ok .Google
  else if s = "github" then .ok .GitHub
  else if s = "twitch" then .ok .Twitch
  else if s = "twitter" then .ok .Twitter
  else if s = "discord" then .ok .Discord
  else if s = "facebook" then .ok .Facebook
  else .error .InvalidProvider

/-- UTF-8 validation/decoding of a byte sequence into code points, as
performed by `std::str::from_utf8`: `none` iff the bytes are malformed
(bad leading byte, truncated sequence, bad continuation byte, overlong
form, surrogate, or value above U+10FFFF). -/
def utf8Decode : List Nat → Option (List Nat)
  | [] => some []
  | b :: rest =>
    if b < 0x80 then (utf8Decode rest).map (b :: ·)
    else if 0xC2 ≤ b ∧ b ≤ 0xDF then
      match rest with
      | b1 :: rest1 =>
        if 0x80 ≤ b1 ∧ b1 ≤ 0xBF then
          (utf8Decode rest1).map (((b - 0xC0) * 64 + (b1 - 0x80)) :: ·)
        else none
      | _ => none
    else if 0xE0 ≤ b ∧ b ≤ 0xEF then
      match rest with
      | b1 :: b2 :: rest2 =>
        if ((if b = 0xE0 then 0xA0 else 0x80) ≤ b1 ∧
              b1 ≤ (if b = 0xED then 0x9F else 0xBF)) ∧
            (0x80 ≤ b2 ∧ b2 ≤ 0xBF) then
          (utf8Decode rest2).map
            (((b - 0xE0) * 4096 + (b1 - 0x80) * 64 + (b2 - 0x80)) :: ·)
        else none
      | _ => none
    else if 0xF0 ≤ b ∧ b ≤ 0xF4 then
      match rest with
      | b1 :: b2 :: b3 :: rest3 =>
        if ((if b = 0xF0 then 0x90 else 0x80) ≤ b1 ∧
              b1 ≤ (if b = 0xF4 then 0x8F else 0xBF)) ∧
            (0x80 ≤ b2 ∧ b2 ≤ 0xBF) ∧ (0x80 ≤ b3 ∧ b3 ≤ 0xBF) then
          (utf8Decode rest3).map
            (((b - 0xF0) * 262144 + (b1 - 0x80) * 4096 + (b2 - 0x80) * 64 + (b3 - 0x80)) :: ·)
        else none
      | _ => none
    else none

/-- `TryFrom<&[u8]> for IdentityProvider` (user.rs:77-85): validate the
bytes as UTF-8 (failing with `Utf8Error`), then dispatch to the string
parser. -/
def bytesTryInto (bytes : List Nat) : Except IntoIdentityProviderError IdentityProvider :=
  match utf8Decode bytes with
  | none => .error .Utf8Error
  | some cps => strTryInto (String.mk (cps.map Char.ofNat))

/-- `uuid::Uuid`: a 128-bit identifier, modelled as its numeric value. -/
structure Uuid where
  val : Nat
deriving DecidableEq

/-- Lowercase hex digit characters used by the `Uuid` `Display` impl. -/
def hexDigitChar (n : Nat) : Char :=
  (("0123456789abcdef".toList).getD n '0')

/-- `Display` for `Uuid`: 32 lowercase hex digits in hyphenated
8-4-4-4-12 form, as produced by `format!("{}", id)`. -/
def uuidShow (u : Uuid) : String :=
  let d := (List.range 32).map (fun i => hexDigitChar ((u.val / 16 ^ (31 - i)) % 16))
  String.mk (d.take 8 ++ ['-'] ++ ((d.drop 8).take 4) ++ ['-'] ++
    ((d.drop 12).take 4) ++ ['-'] ++ ((d.drop 16).take 4) ++ ['-'] ++ d.drop 20)

/-- `time::Timespec`: the database-native timestamp representation, whole
seconds (`i64`) plus subsecond nanoseconds (`i32`). -/
structure Timespec where
  sec : Int
  nsec : Int
deriving DecidableEq

/-- `RegistrationTimestamp` (user.rs:141-145): seconds since the epoch
(`i64`) and remaining nanoseconds (`i32`). -/
structure RegistrationTimestamp where
  sec : Int
  nsec : Int
deriving DecidableEq

/-- `Default` for `RegistrationTimestamp`: both fields zero (the epoch). -/
def regTsDefault : RegistrationTimestamp := ⟨0, 0⟩

/-- `PartialEq for RegistrationTimestamp` (user.rs:160-164): seconds must
match exactly and nanoseconds only after truncating division by 1,000,000
(Rust `i32` division truncates toward zero, hence `Int.tdiv`). -/
def regTsEq (a b : RegistrationTimestamp) : Bool :=
  a.sec == b.sec && a.nsec.tdiv 1000000 == b.nsec.tdiv 1000000

/-- `From<Timespec> for RegistrationTimestamp` (user.rs:167-174). -/
def regTsFromTimespec (t : Timespec) : RegistrationTimestamp :=
  ⟨t.sec, t.nsec⟩

/-- `From<&RegistrationTimestamp> for Timespec` (user.rs:177-184). -/
def timespecFromRegTs (r : RegistrationTimestamp) : Timespec :=
  ⟨r.sec, r.nsec⟩

/-- `chrono::DateTime<Utc>`: a calendar-time instant, modelled by its
derived `timestamp()` (whole seconds, floor) and
`timestamp_subsec_nanos()` (`u32` subsecond nanoseconds; chrono keeps this
below 2,000,000,000, values of 1,000,000,000 and above representing leap
seconds). -/
structure DateTimeUtc where
  sec : Int
  nsec : Nat
deriving DecidableEq

/-- `TryFrom<DateTime<Utc>> for RegistrationTimestamp` (user.rs:212-222):
seconds pass through; subsecond nanoseconds go through
`u32::try_into::<i32>()`, which fails iff the value exceeds `i32::MAX`. -/
def regTsFromCalendar (t : DateTimeUtc) : Option RegistrationTimestamp :=
  if t.nsec ≤ 2147483647 then some ⟨t.sec, (t.nsec : Int)⟩ else none

/-- The `as u32` cast applied to the stored `i32` nanoseconds in
`User::registered_at` (user.rs:396): two's-complement wrap modulo 2^32. -/
def u32cast (i : Int) : Nat := (i.emod 4294967296).toNat

/-- `User::registered_at` (user.rs:394-399):
`DateTime::from_utc(NaiveDateTime::from_timestamp(sec, nsec as u32), Utc)`.
`NaiveDateTime::from_timestamp` panics when the nanosecond argument is
2,000,000,000 or more; the panic is modelled as `none`. -/
def regTsToCalendar (r : RegistrationTimestamp) : Option DateTimeUtc :=
  if u32cast r.nsec < 2000000000 then some ⟨r.sec, u32cast r.nsec⟩ else none

/-- The Bitcoin base-58 alphabet used by the `bs58` crate's default
encoder/decoder. -/
def bs58Alphabet : List Char :=
  "123456789ABCDEFGHJKLMNPQRSTUVWXYZabcdefghijkmnopqrstuvwxyz".toList

/-- Little-endian digits of `n` in base `base` (at least 2), computed with
structural fuel so the definition reduces in the kernel; `fuel ≥ n`
suffices since every division step shrinks a positive `n`. -/
def natDigitsRev (base : Nat) : Nat → Nat → List Nat
  | _, 0 => []
  | 0, _ + 1 => []
  | fuel + 1, n + 1 => (n + 1) % base :: natDigitsRev base fuel ((n + 1) / base)

/-- Big-endian digits of `n` in base `base`; empty for `n = 0`. -/
def natDigits (base n : Nat) : List Nat := (natDigitsRev base n n).reverse

/-- `bs58::encode(..).into_string()`: each leading zero byte becomes the
character `'1'`; the remaining bytes, read as a big-endian number, become
big-endian base-58 digits drawn from the alphabet. -/
def bs58Encode (bytes : List Nat) : String :=
  let zeros := (bytes.takeWhile (· == 0)).length
  let n := bytes.foldl (fun acc b => acc * 256 + b) 0
  String.mk (List.replicate zeros '1' ++ (natDigits 58 n).map (fun d => bs58Alphabet.getD d '1'))

/-- `bs58::decode::Error`, restricted to the variants `into_vec` can
produce. -/
inductive Bs58DecodingError
  | InvalidCharacter (character : Char) (index : Nat)
  | NonAsciiCharacter (index : Nat)
deriving DecidableEq

/-- Character-by-character base-58 digit parsing as done by
`bs58::decode(..).into_vec()`: a byte above 127 is a `NonAsciiCharacter`
error, a byte outside the alphabet an `InvalidCharacter` error. -/
def bs58DigitsOfChars : List Char → Nat → Except Bs58DecodingError (List Nat)
  | [], _ => .ok []
  | c :: rest, i =>
    if c.toNat ≥ 128 then .error (.NonAsciiCharacter i)
    else
      match List.findIdx? (fun a => a = c) bs58Alphabet with
      | none => .error (.InvalidCharacter c i)
      | some d => (bs58DigitsOfChars rest (i + 1)).map (d :: ·)

/-- `bs58::decode(..).into_vec()`: parse every character as a base-58
digit, emit one zero byte per leading `'1'` (digit value 0), and append
the big-endian base-256 bytes of the number the digits denote. -/
def bs58Decode (s : String) : Except Bs58DecodingError (List Nat) :=
  (bs58DigitsOfChars s.toList 0).map (fun digits =>
    let zeros := (digits.takeWhile (· == 0)).length
    let n := digits.foldl (fun acc d => acc * 58 + d) 0
    List.replicate zeros 0 ++ natDigits 256 n)

/-- `User` (user.rs:227-249): the borrowed in-memory user record.  The
`password_hash: [u8; 32]` field is a byte list carrying its fixed-length
invariant. -/
structure User where
  id : Uuid
  username : String
  email : String
  password_hash : List Nat
  hash_len : password_hash.length = 32
  registered_at : RegistrationTimestamp

/-- `OwnedUser` (user.rs:545-553): the owned counterpart produced by row
decoding; its `password_hash: Vec<u8>` has no length invariant. -/
structure OwnedUser where
  id : Uuid
  username : String
  email : String
  password_hash : List Nat
  registered_at : RegistrationTimestamp
deriving DecidableEq

/-- `User::new` (user.rs:283-303).  The random `Uuid::new_v4()` and the
impure `Utc::now()` are passed in as explicit arguments.  A supplied
registration time is converted with `try_into().unwrap_or_default()`; an
absent one uses `Utc::now().try_into().unwrap_or(default)`. -/
def userNew (id : Option Uuid) (username email : String)
    (password_hash : List Nat) (hash_len : password_hash.length = 32)
    (registered_at : Option DateTimeUtc)
    (freshId : Uuid) (now : DateTimeUtc) : User :=
  { id := id.getD freshId
    username := username
    email := email
    password_hash := password_hash
    hash_len := hash_len
    registered_at :=
      match registered_at with
      | some t => (regTsFromCalendar t).getD regTsDefault
      | none => (regTsFromCalendar now).getD regTsDefault }

/-- `From<&'a OwnedUser> for User<'a>` (user.rs:514-524): field-by-field
copy, where `array_ref![u.password_hash.as_slice(), 0, 32]` takes the
first 32 bytes and panics (modelled as `none`) when fewer than 32 bytes
are present. -/
def userFromOwned (u : OwnedUser) : Option User :=
  if h : 32 ≤ u.password_hash.length then
    some
      { id := u.id
        username := u.username
        email := u.email
        password_hash := u.password_hash.take 32
        hash_len := by rw [List.length_take]; exact Nat.min_eq_left h
        registered_at := u.registered_at }
  else none

/-- A typed CDRS query value, covering the column types the encoder
produces. -/
inductive DbValue
  | uuid (u : Uuid)
  | text (s : String)
  | timestamp (t : Timespec)
deriving DecidableEq

/-- `ConvertUserToQueryValuesError` (user.rs:453-457): the write-path
failure modes.  The bincode and bs58 payloads are elided. -/
inductive ConvertUserToQueryValuesError
  | SerializationError
  | EncodingError
deriving DecidableEq

/-- `Serializable<QueryValues> for User` (user.rs:433-447): the
`query_values!` invocation listing the five named columns, with the
password hash base-58 encoded into text and the registration time
converted to the native `Timespec`.  The macro arguments are modelled in
their written order. -/
def userToQueryValues (u : User) :
    Except ConvertUserToQueryValuesError (List (String × DbValue)) :=
  .ok
    [("id", .uuid u.id),
     ("username", .text u.username),
     ("email", .text u.email),
     ("password_hash", .text (bs58Encode u.password_hash)),
     ("registered_at", .timestamp (timespecFromRegTs u.registered_at))]

/-- `UserQuery` (user.rs:526-531): the two lookup keys. -/
inductive UserQuery
  | Id (id : Uuid)
  | Nickname (nick : String)

/-- `UserQuery::to_query` (user.rs:533-543): builds the SELECT statement
text with `format!`, splicing the display form of the value directly into
the string (the session argument is unused). -/
def toQuery : UserQuery → String
  | .Id id => "SELECT * FROM identity.users WHERE id = " ++ uuidShow id ++ ";"
  | .Nickname nick =>
    "SELECT * FROM identity.users WHERE username = " ++
      String.mk [Char.ofNat 39] ++ nick ++ String.mk [Char.ofNat 39] ++ ";"

/-- `ConvertRowToUserError` (user.rs:567-571): a wrapped CDRS column-read
failure or a wrapped base-58 decoding failure.  The CDRS payload is
elided. -/
inductive ConvertRowToUserError
  | CDRSError
  | DecodingError (e : Bs58DecodingError)
deriving DecidableEq

/-- A CDRS `Row` restricted to the columns the decoder reads by name: a
present, well-typed column is `some`; an absent or mistyped column is
`none`. -/
structure Row where
  id : Option Uuid
  username : Option String
  email : Option String
  password_hash : Option String
  registered_at : Option Timespec
deriving DecidableEq

/-- `Row::get_r_by_name`: yields the column value or a CDRS error
(wrapped by the `From<CDRSError>` impl at user.rs:583-587). -/
def getColumn {α : Type} (v : Option α) : Except ConvertRowToUserError α :=
  match v with
  | some x => .ok x
  | none => .error .CDRSError

/-- `Deserializable<OwnedUser, Row>::try_from` (user.rs:610-630): read the
five columns in source order, base-58 decoding the `password_hash` text
(wrapping failures via the `From<Bs58DecodingError>` impl at
user.rs:589-593) and converting the native timestamp through
`From<Timespec>`. -/
def rowTryIntoOwnedUser (row : Row) : Except ConvertRowToUserError OwnedUser := do
  let id ← getColumn row.id
  let username ← getColumn row.username
  let email ← getColumn row.email
  let hashText ← getColumn row.password_hash
  let password_hash ← (bs58Decode hashText).mapError ConvertRowToUserError.DecodingError
  let ts ← getColumn row.registered_at
  pure
    { id := id
      username := username
      email := email
      password_hash := password_hash
      registered_at := regTsFromTimespec ts }

set_option maxRecDepth 10000

/-- Claim C1: the claim that every `IdentityProvider` tag round-trips
through its wire string fails on the code for `Reddit`: encoding yields
`"reddit"`, but the `TryFrom<&str>` match omits the `"reddit"` arm, so
decoding returns `InvalidProvider`.  All six other tags round-trip. -/
theorem provider_roundtrip_reddit_missing :
    strTryInto (providerToStr .Reddit) = .error .InvalidProvider ∧
    strTryInto (providerToStr .Google) = .ok .Google ∧
    strTryInto (providerToStr .GitHub) = .ok .GitHub ∧
    strTryInto (providerToStr .Twitch) = .ok .Twitch ∧
    strTryInto (providerToStr .Twitter) = .ok .Twitter ∧
    strTryInto (providerToStr .Discord) = .ok .Discord ∧
    strTryInto (providerToStr .Facebook) = .ok .Facebook := by
  decide

/-- Claim C2: the claim that the lookup statement text is independent of
the looked-up value fails on the code: `UserQuery::to_query` splices the
value into the SELECT text with `format!`, so different values produce
different statement texts on both the id and the username paths, and the
nickname is embedded verbatim between single quotes. -/
theorem user_query_text_depends_on_value :
    toQuery (.Nickname "a") =
      "SELECT * FROM identity.users WHERE username = " ++
        String.mk [Char.ofNat 39] ++ "a" ++ String.mk [Char.ofNat 39] ++ ";" ∧
    toQuery (.Nickname "a") ≠ toQuery (.Nickname "b") ∧
    toQuery (.Id ⟨0⟩) ≠ toQuery (.Id ⟨1⟩) := by
  refine ⟨rfl, ?_, ?_⟩ <;> decide

/-- Claim C3 counterexample: a row whose `password_hash` column holds the
valid base-58 text `"2"` is decoded successfully, yet the resulting owned
user's hash is the single byte `[1]`, not 32 bytes: the decoder performs
no length check. -/
theorem row_decoder_accepts_short_hash :
    rowTryIntoOwnedUser ⟨some ⟨0⟩, some "test", some "t@t.com", some "2", some ⟨0, 0⟩⟩ =
      .ok ⟨⟨0⟩, "test", "t@t.com", [1], ⟨0, 0⟩⟩ ∧
    (OwnedUser.password_hash ⟨⟨0⟩, "test", "t@t.com", [1], ⟨0, 0⟩⟩).length ≠ 32 := by
  decide

/-- Claim C3 as amended: whenever the read-path decoder succeeds, the
resulting `password_hash` consists of exactly the bytes the base-58 text
column decodes to — never truncated or padded — but that length is
whatever the text encodes; 32 is not enforced. -/
theorem row_decoder_hash_is_exact_bs58_decode (row : Row) (u : OwnedUser)
    (h : rowTryIntoOwnedUser row = .ok u) :
    row.password_hash.map bs58Decode = some (.ok u.password_hash) := by
  obtain ⟨oid, oun, oem, oph, ots⟩ := row
  cases oid with
  | none => simp [rowTryIntoOwnedUser, getColumn, bind, Except.bind] at h
  | some i =>
  cases oun with
  | none => simp [rowTryIntoOwnedUser, getColumn, bind, Except.bind] at h
  | some un =>
  cases oem with
  | none => simp [rowTryIntoOwnedUser, getColumn, bind, Except.bind] at h
  | some em =>
  cases oph with
  | none => simp [rowTryIntoOwnedUser, getColumn, bind, Except.bind] at h
  | some s =>
  cases hb : bs58Decode s with
  | error e =>
    simp [rowTryIntoOwnedUser, getColumn, bind, Except.bind, Except.mapError, hb] at h
  | ok bytes =>
  cases ots with
  | none =>
    simp [rowTryIntoOwnedUser, getColumn, bind, Except.bind, Except.mapError, hb] at h
  | some ts =>
    simp only [rowTryIntoOwnedUser, getColumn, bind, Except.bind, Except.mapError, hb,
      pure, Except.pure] at h
    injection h with h
    subst h
    simp [hb]

/-- Witness for the amended C3 claim at a concrete row. -/
theorem row_decoder_hash_is_exact_bs58_decode_witness :
    (Row.password_hash ⟨some ⟨0⟩, some "test", some "t@t.com", some "2", some ⟨0, 0⟩⟩).map
        bs58Decode =
      some (.ok (OwnedUser.password_hash ⟨⟨0⟩, "test", "t@t.com", [1], ⟨0, 0⟩⟩)) :=
  row_decoder_hash_is_exact_bs58_decode
    ⟨some ⟨0⟩, some "test", some "t@t.com", some "2", some ⟨0, 0⟩⟩
    ⟨⟨0⟩, "test", "t@t.com", [1], ⟨0, 0⟩⟩ (by decide)

/-- Claim C4: `RegistrationTimestamp` equality compares at millisecond
granularity.  For in-range nanosecond fields (the `i32` invariant kept by
the timestamp columns), two timestamps with equal seconds and nanoseconds
in the same millisecond compare equal, and two timestamps at least one
full millisecond apart (in total nanoseconds) compare unequal. -/
theorem reg_ts_eq_millisecond_granularity (a b : RegistrationTimestamp)
    (ha0 : 0 ≤ a.nsec) (ha1 : a.nsec < 1000000000)
    (hb0 : 0 ≤ b.nsec) (hb1 : b.nsec < 1000000000) :
    (a.sec = b.sec → a.nsec / 1000000 = b.nsec / 1000000 → regTsEq a b = true) ∧
    (1000000 ≤ (a.sec * 1000000000 + a.nsec) - (b.sec * 1000000000 + b.nsec) ∨
        1000000 ≤ (b.sec * 1000000000 + b.nsec) - (a.sec * 1000000000 + a.nsec) →
      regTsEq a b = false) := by
  have hda : a.nsec.tdiv 1000000 = a.nsec / 1000000 :=
    Int.tdiv_eq_ediv ha0 (by norm_num)
  have hdb : b.nsec.tdiv 1000000 = b.nsec / 1000000 :=
    Int.tdiv_eq_ediv hb0 (by norm_num)
  constructor
  · intro hsec hdiv
    simp [regTsEq, hda, hdb, hsec, hdiv]
  · intro hfar
    simp only [regTsEq, hda, hdb, Bool.and_eq_false_iff, beq_eq_false_iff_ne, ne_eq]
    rcases hfar with hf | hf
    · by_cases hsec : a.sec = b.sec
      · right
        omega
      · left
        exact hsec
    · by_cases hsec : a.sec = b.sec
      · right
        omega
      · left
        exact hsec

/-- Witness for C4: same-millisecond jitter compares equal; a two
millisecond gap compares unequal. -/
theorem reg_ts_eq_millisecond_granularity_witness :
    regTsEq ⟨5, 123456⟩ ⟨5, 999999⟩ = true ∧
    regTsEq ⟨5, 123456⟩ ⟨5, 2123456⟩ = false :=
  ⟨(reg_ts_eq_millisecond_granularity ⟨5, 123456⟩ ⟨5, 999999⟩ (by decide) (by decide)
      (by decide) (by decide)).1 rfl (by decide),
   (reg_ts_eq_millisecond_granularity ⟨5, 123456⟩ ⟨5, 2123456⟩ (by decide) (by decide)
      (by decide) (by decide)).2 (.inr (by decide))⟩

/-- Claim C5: for every calendar-time value (satisfying the chrono
invariant that subsecond nanoseconds stay below 2,000,000,000) whose
conversion to a `RegistrationTimestamp` succeeds, `registered_at`
reconstructs exactly the same calendar-time value at full nanosecond
precision, and that reverse conversion cannot panic on this domain. -/
theorem registration_calendar_roundtrip (t : DateTimeUtc) (r : RegistrationTimestamp)
    (hleap : t.nsec < 2000000000)
    (h : regTsFromCalendar t = some r) :
    regTsToCalendar r = some t := by
  obtain ⟨tsec, tnsec⟩ := t
  dsimp only at hleap
  unfold regTsFromCalendar at h
  dsimp only at h
  split at h
  · injection h with h
    subst h
    have hcast : u32cast (tnsec : Int) = tnsec := by
      show ((tnsec : Int) % 4294967296).toNat = tnsec
      omega
    simp [regTsToCalendar, hcast, hleap]
  · exact absurd h (by simp)

/-- Witness for C5 at a concrete calendar time. -/
theorem registration_calendar_roundtrip_witness :
    regTsToCalendar ⟨100, 500⟩ = some ⟨100, 500⟩ :=
  registration_calendar_roundtrip ⟨100, 500⟩ ⟨100, 500⟩ (by decide) (by decide)

/-- Claim C6: the write-path encoder succeeds on every user and produces
exactly the five columns of the users table in the order id, username,
email, password_hash, registered_at, with the hash base-58 text-encoded
from its 32 raw bytes and the registration time passed as the native
seconds/nanoseconds pair. -/
theorem user_serialize_query_values (u : User) :
    userToQueryValues u =
      .ok [("id", .uuid u.id),
           ("username", .text u.username),
           ("email", .text u.email),
           ("password_hash", .text (bs58Encode u.password_hash)),
           ("registered_at", .timestamp ⟨u.registered_at.sec, u.registered_at.nsec⟩)] ∧
    u.password_hash.length = 32 :=
  ⟨rfl, u.hash_len⟩

/-- Claim C7: a row whose id, username and email columns are readable but
whose password-hash column holds text that is not valid base-58 makes the
read-path decoder fail with `DecodingError` wrapping that base-58 failure;
no user value is produced. -/
theorem row_decoder_invalid_bs58_yields_decoding_error
    (row : Row) (i : Uuid) (un em s : String) (e : Bs58DecodingError)
    (hid : row.id = some i) (hun : row.username = some un) (hem : row.email = some em)
    (hph : row.password_hash = some s)
    (he : bs58Decode s = .error e) :
    rowTryIntoOwnedUser row = .error (.DecodingError e) := by
  simp [rowTryIntoOwnedUser, getColumn, hid, hun, hem, hph, he, bind, Except.bind,
    Except.mapError]

/-- Witness for C7: the character `'0'` is outside the base-58 alphabet,
so a row carrying hash text `"0"` fails with the wrapped invalid-character
error. -/
theorem row_decoder_invalid_bs58_yields_decoding_error_witness :
    rowTryIntoOwnedUser ⟨some ⟨0⟩, some "test", some "t@t.com", some "0", some ⟨0, 0⟩⟩ =
      .error (.DecodingError (.InvalidCharacter '0' 0)) :=
  row_decoder_invalid_bs58_yields_decoding_error
    ⟨some ⟨0⟩, some "test", some "t@t.com", some "0", some ⟨0, 0⟩⟩
    ⟨0⟩ "test" "t@t.com" "0" (.InvalidCharacter '0' 0) rfl rfl rfl rfl (by decide)

/-- Claim C8: decoding a string outside the fixed wire-string set fails
with `InvalidProvider`; decoding bytes that are not valid UTF-8 fails with
the distinct `Utf8Error`; and decoding never defaults — an `ok` result
only ever arises from the matching tag's own wire string. -/
theorem provider_decode_error_paths :
    (∀ s : String,
        s ∉ ["google", "github", "twitch", "reddit", "twitter", "discord", "facebook"] →
        strTryInto s = .error .InvalidProvider) ∧
    (∀ bytes : List Nat, utf8Decode bytes = none →
        bytesTryInto bytes = .error .Utf8Error) ∧
    (∀ (s : String) (p : IdentityProvider), strTryInto s = .ok p → s = providerToStr p) := by
  refine ⟨?_, ?_, ?_⟩
  · intro s hs
    simp only [List.mem_cons, List.mem_singleton, not_or] at hs
    obtain ⟨h1, h2, h3, _, h5, h6, ⟨h7, _⟩⟩ := hs
    simp [strTryInto, h1, h2, h3, h5, h6, h7]
  · intro bytes h
    simp [bytesTryInto, h]
  · intro s p h
    unfold strTryInto at h
    split_ifs at h <;>
      (injection h with h
       subst h
       simp_all [providerToStr])

/-- Witness for C8: a string outside the set, a lone continuation byte,
and the Google wire string. -/
theorem provider_decode_error_paths_witness :
    strTryInto "googol" = .error .InvalidProvider ∧
    bytesTryInto [128] = .error .Utf8Error ∧
    ("google" : String) = providerToStr .Google :=
  ⟨provider_decode_error_paths.1 "googol" (by decide),
   provider_decode_error_paths.2.1 [128] (by decide),
   provider_decode_error_paths.2.2 "google" .Google (by decide)⟩

/-- Claim C9: when `User::new` is given a registration calendar time whose
conversion to `RegistrationTimestamp` fails, construction still succeeds
(the function is total) and the stored timestamp is silently the epoch
default, seconds = 0, nanoseconds = 0; when no time is supplied, the
current time is converted, with the same epoch fallback. -/
theorem user_new_epoch_fallback (id : Option Uuid) (un em : String)
    (ph : List Nat) (hl : ph.length = 32) (t : DateTimeUtc)
    (freshId : Uuid) (now : DateTimeUtc)
    (hfail : regTsFromCalendar t = none) :
    (userNew id un em ph hl (some t) freshId now).registered_at = regTsDefault ∧
    (userNew id un em ph hl none freshId now).registered_at =
      (regTsFromCalendar now).getD regTsDefault := by
  constructor
  · simp [userNew, hfail]
  · rfl

/-- Witness for C9: a subsecond-nanosecond field just above `i32::MAX`
makes the conversion fail, and the constructed user records the epoch. -/
theorem user_new_epoch_fallback_witness :
    (userNew none "test" "t@t.com" (List.replicate 32 0) (by decide)
        (some ⟨0, 2147483648⟩) ⟨0⟩ ⟨0, 0⟩).registered_at = regTsDefault :=
  (user_new_epoch_fallback none "test" "t@t.com" (List.replicate 32 0) (by decide)
    ⟨0, 2147483648⟩ ⟨0⟩ ⟨0, 0⟩ (by decide)).1

/-- Claim C10: converting an owned user to the borrowed view is partial:
with at least 32 hash bytes it succeeds, copying the first 32 bytes and
preserving id, username, email and registration time exactly; with fewer
than 32 bytes it panics (modelled as `none`). -/
theorem owned_to_borrowed_precondition (u : OwnedUser) :
    (32 ≤ u.password_hash.length →
      (userFromOwned u).isSome = true ∧
      ∀ v : User, userFromOwned u = some v →
        v.id = u.id ∧ v.username = u.username ∧ v.email = u.email ∧
        v.password_hash = u.password_hash.take 32 ∧ v.registered_at = u.registered_at) ∧
    (u.password_hash.length < 32 → userFromOwned u = none) := by
  constructor
  · intro h
    have he : userFromOwned u = some
        ⟨u.id, u.username, u.email, u.password_hash.take 32,
          by rw [List.length_take]; exact Nat.min_eq_left h, u.registered_at⟩ :=
      dif_pos h
    refine ⟨by rw [he]; rfl, ?_⟩
    intro v hv
    rw [he] at hv
    injection hv with hv
    subst hv
    exact ⟨rfl, rfl, rfl, rfl, rfl⟩
  · intro h
    exact dif_neg (by omega)

/-- Witness for C10: a 40-byte hash converts; a 3-byte hash panics. -/
theorem owned_to_borrowed_precondition_witness :
    (userFromOwned ⟨⟨1⟩, "u", "e", List.replicate 40 7, ⟨0, 0⟩⟩).isSome = true ∧
    userFromOwned ⟨⟨2⟩, "u", "e", [1, 2, 3], ⟨0, 0⟩⟩ = none :=
  ⟨((owned_to_borrowed_precondition ⟨⟨1⟩, "u", "e", List.replicate 40 7, ⟨0, 0⟩⟩).1
      (by decide)).1,
   (owned_to_borrowed_precondition ⟨⟨2⟩, "u", "e", [1, 2, 3], ⟨0, 0⟩⟩).2 (by decide)⟩
